import Mathlib

/-!
Shallow embedding of the relation-server graph core.

Embedded source files:
* `src/graph/edge/proof.rs` — the `Proof` edge, `find_by_from_to`, `find_by_uuid`, `connect`;
* `src/graph/vertex/mod.rs` — the `Vertex` contract (its concrete `Identity` implementation
  file `identity.rs` is not under `src/`, so `create_or_update` is modelled from the spec);
* `src/upstream/keybase/mod.rs` — the Keybase `Fetcher` and its response types;
* `src/controller/graphql/proof.rs` — the GraphQL `ProofQuery::proof` resolver.

Modelling conventions: UUIDs and document keys are natural numbers; `Uuid::new_v4()` is a
counter-based fresh-uuid supply threaded through the functions that generate uuids;
`naive_now()` is an explicit `now : Nat` parameter; the ArangoDB store is a `Store` value
holding the `Identities` and `Proofs` collections as lists in insertion order, with queries
translated filter-by-filter from the aragog `Comparison`/`Filter` calls.
-/

deriving instance DecidableEq for Except

namespace RelationServer

/-- A UUID, modelled as a natural number drawn from a fresh-supply counter. -/
abbrev Uuid := Nat

/-- `DataSource` enum (referenced from `proof.rs`; variants as used by the sources:
`NextID` is `Proof::default`'s source, `Keybase` the connector's, `SybilList` the
test dummy's). -/
inductive DataSource
  | NextID
  | Keybase
  | SybilList
deriving DecidableEq, Repr

/-- Modelled from the spec: the closed `Platform` enumeration (its defining file under
`src/upstream/` is not under `src/`). It names account namespaces; the exact variant set is
illustrative, what matters is that it is closed and some strings are outside it. -/
inductive Platform
  | Keybase
  | Twitter
  | Github
  | Ethereum
deriving DecidableEq, Repr

/-- Modelled from the spec: `Platform::from_str` recognizes exactly the serialized names of
the closed enumeration's variants and fails on every other string. -/
def Platform.from_str : String → Option Platform
  | "keybase" => some Platform.Keybase
  | "twitter" => some Platform.Twitter
  | "github" => some Platform.Github
  | "ethereum" => some Platform.Ethereum
  | _ => none

/-- Modelled from the spec: the `Error` enum (`src/error.rs` is not under `src/`), following
the spec's error taxonomy: parameter error, upstream/general error (carrying the upstream
message and the HTTP status), the distinct no-result error, GraphQL context error. -/
inductive Error
  | ParamError (msg : String)
  | General (msg : String) (status : Nat)
  | NoResult
  | GraphQLError (msg : String)
deriving DecidableEq, Repr

/-- The `Identity` vertex payload (field list from the construction sites in
`src/upstream/keybase/mod.rs`; `identity.rs` itself is not under `src/`). Timestamps are
naturals. -/
structure Identity where
  uuid : Option Uuid
  platform : Platform
  identity : String
  created_at : Option Nat
  display_name : String
  added_at : Nat
  avatar_url : Option String
  profile_url : Option String
  updated_at : Nat
deriving DecidableEq, Repr

/-- The `Proof` edge payload, from `src/graph/edge/proof.rs` lines 21-34. -/
structure Proof where
  uuid : Uuid
  source : DataSource
  record_id : Option String
  created_at : Option Nat
  last_fetched_at : Nat
deriving DecidableEq, Repr

/-- A stored `DatabaseRecord<Identity>`: the document key (`.id()`) plus the payload. -/
structure IdentityRecord where
  key : Nat
  record : Identity
deriving DecidableEq, Repr

/-- A stored `DatabaseRecord<EdgeRecord<Proof>>` (= `ProofRecord` after `Deref`): document
key, `_from` and `_to` vertex keys, and the `Proof` payload. -/
structure ProofEdge where
  key : Nat
  from_key : Nat
  to_key : Nat
  record : Proof
deriving DecidableEq, Repr

/-- The graph store: the `Identities` and `Proofs` collections in insertion order, plus the
next fresh document key. -/
structure Store where
  identities : List IdentityRecord
  edges : List ProofEdge
  nextKey : Nat
deriving DecidableEq, Repr

/-- The filter built by `Proof::find_by_from_to` (`proof.rs` lines 56-62):
`_from == from.id() AND _to == to.id() AND source == source`, and additionally
`record_id == record_id.unwrap()` only when `record_id.is_some()`. -/
def proofMatches (from_key to_key : Nat) (source : DataSource)
    (record_id : Option String) (e : ProofEdge) : Bool :=
  e.from_key == from_key && e.to_key == to_key && e.record.source == source &&
    (match record_id with
     | none => true
     | some r => e.record.record_id == some r)

/-- `Proof::find_by_from_to` (`proof.rs` lines 49-70): run the filter query over the
`Proofs` collection and return the first result, or `none` when the result set is empty. -/
def Proof.find_by_from_to (db : Store) (f t : IdentityRecord) (source : DataSource)
    (record_id : Option String) : Option ProofEdge :=
  (db.edges.filter (proofMatches f.key t.key source record_id)).head?

/-- `Proof::find_by_uuid` (`proof.rs` lines 79-93): filter the `Proofs` collection on the
`uuid` field and return the first result, or `none` when the result set is empty. -/
def Proof.find_by_uuid (db : Store) (uuid : Uuid) : Option ProofEdge :=
  (db.edges.filter (fun e => e.record.uuid == uuid)).head?

/-- `DatabaseRecord::link(from, to, db, self.clone())`: insert a new directed edge carrying
the `Proof` payload as-is, under a fresh document key. -/
def Store.link (db : Store) (f t : IdentityRecord) (p : Proof) : ProofEdge × Store :=
  let e : ProofEdge := ⟨db.nextKey, f.key, t.key, p⟩
  (e, { db with edges := db.edges ++ [e], nextKey := db.nextKey + 1 })

/-- `Proof::connect` (`proof.rs` lines 95-108): look up an existing edge via
`find_by_from_to` with `self`'s `source` and `record_id`; if found return it, otherwise
`link` a new edge. -/
def Proof.connect (self : Proof) (db : Store) (f t : IdentityRecord) :
    ProofEdge × Store :=
  match Proof.find_by_from_to db f t self.source self.record_id with
  | some edge => (edge, db)
  | none => Store.link db f t self

/-- Modelled from the spec: `Identity::create_or_update` (`src/graph/vertex/identity.rs` is
not under `src/`). Per the spec's Vertex contract: resolve the external key
`(platform, identity)` to an existing record and update the mutable fields
(`display_name`, `avatar_url`, `profile_url`, `updated_at`), or insert a new record if
none exists. -/
def Identity.create_or_update (self : Identity) (db : Store) :
    IdentityRecord × Store :=
  match db.identities.find? (fun r =>
      r.record.platform == self.platform && r.record.identity == self.identity) with
  | some r =>
      let updated : IdentityRecord :=
        { r with record :=
          { r.record with
            display_name := self.display_name
            avatar_url := self.avatar_url
            profile_url := self.profile_url
            updated_at := self.updated_at } }
      (updated,
       { db with identities :=
          db.identities.map (fun x => if x.key == r.key then updated else x) })
  | none =>
      let inserted : IdentityRecord := ⟨db.nextKey, self⟩
      (inserted,
       { db with identities := db.identities ++ [inserted], nextKey := db.nextKey + 1 })

/-- `Status` from `src/upstream/keybase/mod.rs`. -/
structure Status where
  code : Int
  name : String
deriving DecidableEq, Repr

/-- `Basics` from `src/upstream/keybase/mod.rs`. -/
structure Basics where
  username : String
  ctime : Int
  mtime : Int
  id_version : Int
  track_version : Int
  last_id_change : Int
  username_cased : String
  status : Int
  salt : String
  eldest_seqno : Int
deriving DecidableEq, Repr

/-- `ProofItem` from `src/upstream/keybase/mod.rs`. -/
structure ProofItem where
  proof_type : String
  nametag : String
  state : Int
  service_url : String
  proof_url : String
  sig_id : String
  proof_id : String
  human_url : String
  presentation_group : String
  presentation_tag : String
deriving DecidableEq, Repr

/-- `ProofsSummary` from `src/upstream/keybase/mod.rs`. -/
structure ProofsSummary where
  all : List ProofItem
deriving DecidableEq, Repr

/-- `PersonInfo` from `src/upstream/keybase/mod.rs`. -/
structure PersonInfo where
  id : String
  basics : Basics
  proofs_summary : ProofsSummary
deriving DecidableEq, Repr

/-- `KeybaseResponse` from `src/upstream/keybase/mod.rs`. -/
structure KeybaseResponse where
  status : Status
  them : List PersonInfo
deriving DecidableEq, Repr

/-- `Connection` (its defining file under `src/upstream/` is not under `src/`; field list
from the construction site in `keybase/mod.rs` lines 155-159): the `{from, to, proof}`
aggregate a fetch emits per discovered link. `from` and `to` are Lean tokens, hence
`from_` / `to_`. -/
structure Connection where
  from_ : Identity
  to_ : Identity
  proof : Proof
deriving DecidableEq, Repr

/-- A store-mutation call observed during a fetch, recorded so frame-effect claims about
which store operations run can be stated. -/
inductive StoreEvent
  | createOrUpdate
  | connectCall
deriving DecidableEq, Repr

/-- The per-item loop of `Keybase::fetch` (`keybase/mod.rs` lines 116-161), with the store,
the fresh-uuid counter, the accumulated `Connection`s and the store-call trace threaded.
For each item: build the `from` Identity (fresh uuid, platform Keybase, the subject's id
and username) and upsert it; then — only after that upsert — skip the item if
`Platform::from_str` fails on its `proof_type`; otherwise build and upsert the `to`
Identity, build the `Proof` (fresh uuid, source Keybase, `record_id` the item's
`proof_id`), call `connect` (its returned record is discarded, as in the source), and push
`Connection {from, to, proof}` built from the pre-upsert values. -/
def processItems (user_id user_name : String) (now : Nat) :
    List ProofItem → Store → Nat → List Connection → List StoreEvent →
    List Connection × Store × List StoreEvent
  | [], db, _gen, res, evs => (res, db, evs)
  | p :: rest, db, gen, res, evs =>
    let from_ : Identity :=
      ⟨some gen, Platform.Keybase, user_id, none, user_name, now, none, none, now⟩
    let fr := from_.create_or_update db
    let evs1 := evs ++ [StoreEvent.createOrUpdate]
    match Platform.from_str p.proof_type with
    | none => processItems user_id user_name now rest fr.2 (gen + 1) res evs1
    | some plat =>
      let to_ : Identity :=
        ⟨some (gen + 1), plat, p.nametag, none, p.nametag, now, none, none, now⟩
      let tr := to_.create_or_update fr.2
      let evs2 := evs1 ++ [StoreEvent.createOrUpdate]
      let pf : Proof := ⟨gen + 2, DataSource.Keybase, some p.proof_id, some now, now⟩
      let cr := pf.connect tr.2 fr.1 tr.1
      let evs3 := evs2 ++ [StoreEvent.connectCall]
      processItems user_id user_name now rest cr.2 (gen + 3)
        (res ++ [⟨from_, to_, pf⟩]) evs3

/-- `Keybase::fetch` (`keybase/mod.rs` lines 97-163), from the point where the response
body has been decoded from a success-status HTTP reply: fail with the upstream's embedded
error when `status.code != 0`; pop the last entry of `them` (`Vec::pop`), failing with the
distinct `NoResult` error when `them` is empty; then run the per-item loop over the popped
entry's `proofs_summary.all`. Returns the connections, the mutated store, and the trace of
store calls. -/
def Keybase.fetch (body : KeybaseResponse) (db : Store) (gen now : Nat) :
    Except Error (List Connection × Store × List StoreEvent) :=
  if body.status.code != 0 then
    Except.error (Error.General ("Keybase Result Get Error: " ++ body.status.name) 200)
  else
    match body.them.getLast? with
    | none => Except.error Error.NoResult
    | some person_info =>
      Except.ok (processItems person_info.id person_info.basics.username now
        person_info.proofs_summary.all db gen [] [])

/-- Decimal digit value of a character, `none` for non-digits. -/
def digitVal (c : Char) : Option Nat :=
  if c.isDigit then some (c.toNat - 48) else none

/-- Fold a character list into a decimal numeral; `none` on the empty list or on any
non-digit character. -/
def parseDigits : List Char → Option Nat → Option Nat
  | [], acc => acc
  | c :: rest, acc =>
    match digitVal c, acc with
    | some d, some n => parseDigits rest (some (n * 10 + d))
    | some d, none => parseDigits rest (some d)
    | none, _ => none

/-- Model of `Uuid::parse_str`: uuid strings are modelled as decimal numerals of the
underlying natural; any string that is not a numeral fails to parse. -/
def parseUuid (s : String) : Option Uuid := parseDigits s.data none

/-- `ProofQuery::proof` (`src/controller/graphql/proof.rs` lines 54-67): `None` argument
yields `Ok(None)`; otherwise `Uuid::parse_str(...)?` propagates a parse failure as an
error (a parameter error per the spec's taxonomy); otherwise the result of
`Proof::find_by_uuid`. -/
def ProofQuery.proof (db : Store) (uuid : Option String) :
    Except Error (Option ProofEdge) :=
  match uuid with
  | none => Except.ok none
  | some s =>
    match parseUuid s with
    | none => Except.error (Error.ParamError ("invalid UUID"))
    | some u => Except.ok (Proof.find_by_uuid db u)

/-! ## Concrete test fixtures (inputs for witnesses and counterexamples) -/

/-- Fixture: an Identity payload on Keybase. -/
def identA : Identity := ⟨some 10, Platform.Keybase, "a", none, "A", 0, none, none, 0⟩

/-- Fixture: an Identity payload on Twitter. -/
def identB : Identity := ⟨some 11, Platform.Twitter, "b", none, "B", 0, none, none, 0⟩

/-- Fixture: stored record of `identA` under key 0. -/
def recA : IdentityRecord := ⟨0, identA⟩

/-- Fixture: stored record of `identB` under key 1. -/
def recB : IdentityRecord := ⟨1, identB⟩

/-- Fixture: a Proof payload with `record_id` present. -/
def proofP : Proof := ⟨100, DataSource.Keybase, some ("r1"), none, 0⟩

/-- Fixture: a Proof payload equivalent to `proofP` (same source and record id) but with a
different `uuid` and fetch time. -/
def proofQ : Proof := ⟨101, DataSource.Keybase, some ("r1"), none, 5⟩

/-- Fixture: a Proof payload with `record_id` absent. -/
def proofNoRid : Proof := ⟨102, DataSource.Keybase, none, none, 0⟩

/-- Fixture: a stored edge from `recA` to `recB` carrying `proofP`. -/
def edgeAB : ProofEdge := ⟨5, 0, 1, proofP⟩

/-- Fixture: a store already holding `edgeAB`. -/
def dbAB : Store := ⟨[recA, recB], [edgeAB], 6⟩

/-- Fixture: Keybase subject with one Twitter proof (the spec's alice scenario). -/
def aliceItem : ProofItem := ⟨"twitter", "alice_tw", 1, "", "", "", "p1", "", "", ""⟩

/-- Fixture: alice's `PersonInfo`. -/
def alicePerson : PersonInfo :=
  ⟨"alice_id", ⟨"alice", 0, 0, 0, 0, 0, "alice", 0, "", 0⟩, ⟨[aliceItem]⟩⟩

/-- Fixture: a successful lookup response for alice. -/
def aliceBody : KeybaseResponse := ⟨⟨0, "OK"⟩, [alicePerson]⟩

/-- Fixture: alice's subject Identity as materialized by the first fetch (uuid counter
started at 0, `now = 0`). -/
def aliceFromIdent : Identity :=
  ⟨some 0, Platform.Keybase, "alice_id", none, "alice", 0, none, none, 0⟩

/-- Fixture: alice's linked Twitter Identity as materialized by the first fetch. -/
def aliceToIdent : Identity :=
  ⟨some 1, Platform.Twitter, "alice_tw", none, "alice_tw", 0, none, none, 0⟩

/-- Fixture: the Proof edge stored by the first fetch for alice (uuid 2). -/
def aliceEdge : ProofEdge := ⟨2, 0, 1, ⟨2, DataSource.Keybase, some ("p1"), some 0, 0⟩⟩

/-- Fixture: the store after the first alice fetch on an empty store. -/
def aliceDb1 : Store := ⟨[⟨0, aliceFromIdent⟩, ⟨1, aliceToIdent⟩], [aliceEdge], 3⟩

/-- Fixture: the Connection returned by the first alice fetch. -/
def aliceConn1 : Connection :=
  ⟨aliceFromIdent, aliceToIdent, ⟨2, DataSource.Keybase, some ("p1"), some 0, 0⟩⟩

/-- Fixture: the store-call trace of a one-recognized-item fetch. -/
def oneItemTrace : List StoreEvent :=
  [StoreEvent.createOrUpdate, StoreEvent.createOrUpdate, StoreEvent.connectCall]

/-- Fixture: a proof item whose platform string is outside the `Platform` enumeration. -/
def bobItem : ProofItem := ⟨"dns", "example.com", 1, "", "", "", "p9", "", "", ""⟩

/-- Fixture: bob's `PersonInfo`, carrying only the unrecognized item. -/
def bobPerson : PersonInfo :=
  ⟨"bob_id", ⟨"bob", 0, 0, 0, 0, 0, "bob", 0, "", 0⟩, ⟨[bobItem]⟩⟩

/-- Fixture: a successful lookup response for bob. -/
def bobBody : KeybaseResponse := ⟨⟨0, "OK"⟩, [bobPerson]⟩

/-- Fixture: a recognized proof item for dave. -/
def daveRecItem : ProofItem := ⟨"github", "dave_gh", 1, "", "", "", "p2", "", "", ""⟩

/-- Fixture: an unrecognized proof item for dave. -/
def daveUnItem : ProofItem := ⟨"mastodon", "dave_m", 1, "", "", "", "p3", "", "", ""⟩

/-- Fixture: dave's `PersonInfo`, one recognized and one unrecognized item. -/
def davePerson : PersonInfo :=
  ⟨"dave_id", ⟨"dave", 0, 0, 0, 0, 0, "dave", 0, "", 0⟩, ⟨[daveRecItem, daveUnItem]⟩⟩

/-- Fixture: carol resolves fine but lists zero linked accounts. -/
def carolPerson : PersonInfo :=
  ⟨"carol_id", ⟨"carol", 0, 0, 0, 0, 0, "carol", 0, "", 0⟩, ⟨[]⟩⟩

/-- Fixture: a successful lookup response for carol. -/
def carolBody : KeybaseResponse := ⟨⟨0, "OK"⟩, [carolPerson]⟩

/-! ## Shared helper lemmas -/

/-- The dedup filter accepts an edge freshly linked from the very proof payload whose
`source` and `record_id` parameterize the filter. -/
theorem proofMatches_link_self (k fk tk : Nat) (p : Proof) :
    proofMatches fk tk p.source p.record_id ⟨k, fk, tk, p⟩ = true := by
  unfold proofMatches
  cases h : p.record_id <;> simp [h]

/-- `connect` when the dedup query misses: the new edge is linked under the next fresh key
and appended to the `Proofs` collection. -/
theorem connect_not_found (db : Store) (f t : IdentityRecord) (p : Proof)
    (h : Proof.find_by_from_to db f t p.source p.record_id = none) :
    p.connect db f t =
      (⟨db.nextKey, f.key, t.key, p⟩,
       { db with edges := db.edges ++ [⟨db.nextKey, f.key, t.key, p⟩],
                 nextKey := db.nextKey + 1 }) := by
  unfold Proof.connect
  rw [h]
  rfl

/-- `connect` when the dedup query hits: the found edge is returned and the store is left
untouched. -/
theorem connect_found (db : Store) (f t : IdentityRecord) (p : Proof) (e : ProofEdge)
    (h : Proof.find_by_from_to db f t p.source p.record_id = some e) :
    p.connect db f t = (e, db) := by
  unfold Proof.connect
  rw [h]

/-- A missing dedup result means the filtered collection is empty. -/
theorem find_by_from_to_filter_nil (db : Store) (f t : IdentityRecord)
    (source : DataSource) (record_id : Option String)
    (h : Proof.find_by_from_to db f t source record_id = none) :
    db.edges.filter (proofMatches f.key t.key source record_id) = [] := by
  unfold Proof.find_by_from_to at h
  exact List.head?_eq_none_iff.mp h

/-- `create_or_update` touches only the `Identities` collection: the edge collection is
unchanged in both the update and the insert branch. -/
theorem create_or_update_edges (self : Identity) (db : Store) :
    (self.create_or_update db).2.edges = db.edges := by
  unfold Identity.create_or_update
  cases h : db.identities.find? (fun r =>
      r.record.platform == self.platform && r.record.identity == self.identity) <;> rfl

/-! ## Claim theorems -/

/-- C1: for any `(from, to)` pair of identity records and any two proofs carrying the same
`(source, record_id)`, two `connect` calls yield exactly one stored edge — the first call
appends it, the second call returns that very edge (hence the first call's `uuid`) and
leaves the store unchanged. -/
theorem C1_connect_idempotent (db : Store) (f t : IdentityRecord) (p1 p2 : Proof)
    (hsrc : p2.source = p1.source) (hrid : p2.record_id = p1.record_id)
    (hnone : Proof.find_by_from_to db f t p1.source p1.record_id = none) :
    (p1.connect db f t).2.edges = db.edges ++ [⟨db.nextKey, f.key, t.key, p1⟩] ∧
    p2.connect (p1.connect db f t).2 f t =
      ((p1.connect db f t).1, (p1.connect db f t).2) ∧
    (p2.connect (p1.connect db f t).2 f t).1.record.uuid = p1.uuid := by
  have hc1 := connect_not_found db f t p1 hnone
  have hfilter := find_by_from_to_filter_nil db f t p1.source p1.record_id hnone
  have hfind2 : Proof.find_by_from_to (p1.connect db f t).2 f t p2.source p2.record_id =
      some (p1.connect db f t).1 := by
    rw [hc1]
    unfold Proof.find_by_from_to
    rw [hsrc, hrid]
    simp [List.filter_append, hfilter, List.filter_cons, proofMatches_link_self]
  have hc2 := connect_found (p1.connect db f t).2 f t p2 (p1.connect db f t).1 hfind2
  refine ⟨by rw [hc1], hc2, ?_⟩
  rw [hc2, hc1]

/-- C3: `connect(from=A, to=B)` followed by `connect(from=B, to=A)` (with distinct record
keys for A and B) produces two distinct stored edges: the reversed call's dedup lookup does
not match the first edge, both edges end up in the store, and they differ in key and in
`(_from, _to)` direction. -/
theorem C3_directionality (db : Store) (f t : IdentityRecord) (p1 p2 : Proof)
    (hkey : f.key ≠ t.key)
    (h1 : Proof.find_by_from_to db f t p1.source p1.record_id = none)
    (h2 : Proof.find_by_from_to db t f p2.source p2.record_id = none) :
    Proof.find_by_from_to (p1.connect db f t).2 t f p2.source p2.record_id = none ∧
    (p2.connect (p1.connect db f t).2 t f).2.edges =
      db.edges ++ [(p1.connect db f t).1, (p2.connect (p1.connect db f t).2 t f).1] ∧
    (p1.connect db f t).1.key ≠ (p2.connect (p1.connect db f t).2 t f).1.key ∧
    ((p1.connect db f t).1.from_key, (p1.connect db f t).1.to_key) ≠
      ((p2.connect (p1.connect db f t).2 t f).1.from_key,
       (p2.connect (p1.connect db f t).2 t f).1.to_key) := by
  have hc1 := connect_not_found db f t p1 h1
  have hfilter2 := find_by_from_to_filter_nil db t f p2.source p2.record_id h2
  have hnomatch : proofMatches t.key f.key p2.source p2.record_id
      ⟨db.nextKey, f.key, t.key, p1⟩ = false := by
    unfold proofMatches
    simp [beq_eq_false_iff_ne, hkey]
  have hfind : Proof.find_by_from_to (p1.connect db f t).2 t f p2.source p2.record_id =
      none := by
    rw [hc1]
    unfold Proof.find_by_from_to
    simp [List.filter_append, hfilter2, List.filter_cons, hnomatch]
  have hc2 := connect_not_found (p1.connect db f t).2 t f p2 hfind
  refine ⟨hfind, ?_, ?_, ?_⟩
  · rw [hc2, hc1]
    show (db.edges ++ [⟨db.nextKey, f.key, t.key, p1⟩]) ++
        [⟨db.nextKey + 1, t.key, f.key, p2⟩] = _
    rw [List.append_assoc]
    rfl
  · rw [hc2, hc1]
    show db.nextKey ≠ db.nextKey + 1
    omega
  · rw [hc2, hc1]
    show (f.key, t.key) ≠ (t.key, f.key)
    intro hco
    exact hkey (congrArg Prod.fst hco)

/-- C4: whenever `connect`'s existence query finds a matching edge, `connect` performs no
store write: it returns the found edge with every field unchanged and the store after the
call equals the store before it. -/
theorem C4_connect_found_frame (db : Store) (f t : IdentityRecord) (p : Proof)
    (e : ProofEdge)
    (h : Proof.find_by_from_to db f t p.source p.record_id = some e) :
    p.connect db f t = (e, db) :=
  connect_found db f t p e h

/-- C9: when `record_id` is `None`, the dedup query filters only on
`(_from, _to, source)` — the `record_id` condition is omitted — so an existing edge with
the same endpoints and source but any `record_id` value is returned instead of inserting a
new edge. -/
theorem C9_record_id_none_dedup (db : Store) (f t : IdentityRecord) (p : Proof)
    (e : ProofEdge)
    (hrid : p.record_id = none)
    (h : (db.edges.filter (fun x =>
        x.from_key == f.key && x.to_key == t.key && x.record.source == p.source)).head? =
      some e) :
    Proof.find_by_from_to db f t p.source none =
      (db.edges.filter (fun x =>
        x.from_key == f.key && x.to_key == t.key && x.record.source == p.source)).head? ∧
    p.connect db f t = (e, db) := by
  have hpred : proofMatches f.key t.key p.source none = fun x =>
      x.from_key == f.key && x.to_key == t.key && x.record.source == p.source := by
    funext x
    unfold proofMatches
    simp
  have hfind : Proof.find_by_from_to db f t p.source none =
      (db.edges.filter (fun x =>
        x.from_key == f.key && x.to_key == t.key && x.record.source == p.source)).head? := by
    unfold Proof.find_by_from_to
    rw [hpred]
  refine ⟨hfind, ?_⟩
  have hfound : Proof.find_by_from_to db f t p.source p.record_id = some e := by
    rw [hrid, hfind, h]
  exact connect_found db f t p e hfound

/-- C5: with the upstream's embedded status successful, a response that resolves the
subject (`them` non-empty) but lists zero linked accounts makes `fetch` return the empty
sequence with no error and no store change; a response resolving no subject at all
(`them` empty) makes `fetch` fail with the distinct `NoResult` error — neither a success
value nor a generic `General` fetch error. -/
theorem C5_zero_links_vs_no_subject (body : KeybaseResponse) (db : Store) (gen now : Nat)
    (them0 : List PersonInfo) (person : PersonInfo)
    (hcode : body.status.code = 0) :
    (body.them = them0 ++ [person] → person.proofs_summary.all = [] →
      Keybase.fetch body db gen now = Except.ok ([], db, [])) ∧
    (body.them = [] →
      Keybase.fetch body db gen now = Except.error Error.NoResult ∧
      (∀ res, Keybase.fetch body db gen now ≠ Except.ok res) ∧
      (∀ msg st, Keybase.fetch body db gen now ≠ Except.error (Error.General msg st))) := by
  constructor
  · intro hthem hall
    unfold Keybase.fetch
    rw [hthem]
    simp [hcode, List.getLast?_concat, hall, processItems]
  · intro hthem
    unfold Keybase.fetch
    rw [hthem]
    simp [hcode]

/-- C6: a fetch whose successfully-decoded response carries one linked-account item with a
recognized platform string and one with an unrecognized platform string returns exactly
one `Connection` and raises no error — the unrecognized item is dropped silently. -/
theorem C6_unsupported_platform_skip (st : Status) (person : PersonInfo) (db : Store)
    (gen now : Nat) (pRec pUn : ProofItem) (plat : Platform)
    (hst : st.code = 0)
    (hrec : Platform.from_str pRec.proof_type = some plat)
    (hun : Platform.from_str pUn.proof_type = none)
    (hall : person.proofs_summary.all = [pRec, pUn]) :
    ∃ c dbOut evs,
      Keybase.fetch ⟨st, [person]⟩ db gen now = Except.ok ([c], dbOut, evs) := by
  unfold Keybase.fetch
  simp only [hst]
  simp [hall, processItems, hrec, hun]

/-- C10: `Keybase::fetch` processes only the last element of the response's `them` array
(`Vec::pop`): a response with any earlier person entries behaves exactly like the response
holding only the last entry, so the earlier entries contribute no vertices, edges, or
connections. -/
theorem C10_only_last_person (st : Status) (them : List PersonInfo) (p : PersonInfo)
    (db : Store) (gen now : Nat) :
    Keybase.fetch ⟨st, them ++ [p]⟩ db gen now = Keybase.fetch ⟨st, [p]⟩ db gen now := by
  unfold Keybase.fetch
  cases hc : st.code != 0 <;> simp [hc, List.getLast?_concat]

/-- C2 counterexample: for the spec's alice scenario, the first fetch on an empty store
stores the edge with uuid 2 and returns a Connection with proof uuid 2, but the repeated
identical fetch — while creating no new edge and leaving the store unchanged — returns a
Connection whose proof uuid is the freshly generated 5, not the first fetch's 2: the source
discards `connect`'s return value and places the freshly built `Proof` in the
`Connection`. -/
theorem C2_counterexample :
    Keybase.fetch aliceBody ⟨[], [], 0⟩ 0 0 =
      Except.ok ([aliceConn1], aliceDb1, oneItemTrace) ∧
    Keybase.fetch aliceBody aliceDb1 3 0 =
      Except.ok ([⟨⟨some 3, Platform.Keybase, "alice_id", none, "alice", 0, none, none, 0⟩,
        ⟨some 4, Platform.Twitter, "alice_tw", none, "alice_tw", 0, none, none, 0⟩,
        ⟨5, DataSource.Keybase, some ("p1"), some 0, 0⟩⟩], aliceDb1, oneItemTrace) ∧
    (⟨5, DataSource.Keybase, some ("p1"), some 0, 0⟩ : Proof).uuid ≠
      aliceConn1.proof.uuid := by
  refine ⟨by decide, by decide, by decide⟩

/-- C2 amended: repeating the identical fetch upserts the same two Identity vertices and
creates no new Proof edge — the store, including the stored edge's uuid (the first fetch's),
is unchanged — but the returned Connection carries the freshly built Proof of that
invocation, whose newly generated uuid differs from the uuid returned by the first
fetch. -/
theorem C2_amended_repeat_fetch (gen2 : Nat) (h : gen2 ≠ 0) :
    ∃ c2 : Connection,
      Keybase.fetch aliceBody aliceDb1 gen2 0 =
        Except.ok ([c2], aliceDb1, oneItemTrace) ∧
      c2.proof.uuid ≠ aliceConn1.proof.uuid ∧
      aliceDb1.edges = [aliceEdge] ∧
      aliceEdge.record.uuid = aliceConn1.proof.uuid := by
  refine ⟨⟨⟨some gen2, Platform.Keybase, "alice_id", none, "alice", 0, none, none, 0⟩,
      ⟨some (gen2 + 1), Platform.Twitter, "alice_tw", none, "alice_tw", 0, none, none, 0⟩,
      ⟨gen2 + 2, DataSource.Keybase, some ("p1"), some 0, 0⟩⟩, ?_, ?_, rfl, rfl⟩
  · simp [Keybase.fetch, aliceBody, alicePerson, aliceItem, processItems, aliceDb1,
      aliceFromIdent, aliceToIdent, aliceEdge, Identity.create_or_update, Proof.connect,
      Proof.find_by_from_to, proofMatches, Store.link, oneItemTrace, Platform.from_str]
  · show gen2 + 2 ≠ 2
    omega

/-- C2 witness: the amended repeat-fetch theorem at the concrete fresh-uuid counter 9. -/
theorem C2_witness :
    ∃ c2 : Connection,
      Keybase.fetch aliceBody aliceDb1 9 0 =
        Except.ok ([c2], aliceDb1, oneItemTrace) ∧
      c2.proof.uuid ≠ aliceConn1.proof.uuid ∧
      aliceDb1.edges = [aliceEdge] ∧
      aliceEdge.record.uuid = aliceConn1.proof.uuid :=
  C2_amended_repeat_fetch 9 (by decide)

/-- C7 counterexample: a response whose single linked-account item has the unrecognized
platform string "dns" is skipped — it yields no Connection and no edge — yet the fetch
still performs one `create_or_update` store call (the subject's vertex upsert, which in
the source precedes the platform check), so a skipped item does not cause zero
`create_or_update` calls. -/
theorem C7_counterexample :
    Platform.from_str bobItem.proof_type = none ∧
    Keybase.fetch bobBody ⟨[], [], 0⟩ 0 0 =
      Except.ok ([],
        ⟨[⟨0, ⟨some 0, Platform.Keybase, "bob_id", none, "bob", 0, none, none, 0⟩⟩],
         [], 1⟩,
        [StoreEvent.createOrUpdate]) ∧
    ([StoreEvent.createOrUpdate] : List StoreEvent) ≠ [] := by
  refine ⟨by decide, by decide, by decide⟩

/-- C7 amended: a linked-account item whose platform string is unrecognized is skipped
before the `to`-vertex upsert and the edge connect — it contributes no Connection, no
connect call and no edge mutation — but only after the subject's `from`-vertex upsert:
each skipped item causes exactly one `create_or_update` call, whose store effect leaves
the edge collection unchanged. -/
theorem C7_amended_skip_causes_one_upsert (uid uname : String) (now : Nat) (p : ProofItem)
    (rest : List ProofItem) (db : Store) (gen : Nat) (res : List Connection)
    (evs : List StoreEvent)
    (hskip : Platform.from_str p.proof_type = none) :
    ∃ db1 : Store,
      processItems uid uname now (p :: rest) db gen res evs =
        processItems uid uname now rest db1 (gen + 1) res
          (evs ++ [StoreEvent.createOrUpdate]) ∧
      db1.edges = db.edges := by
  refine ⟨((⟨some gen, Platform.Keybase, uid, none, uname, now, none, none, now⟩ :
      Identity).create_or_update db).2, ?_, create_or_update_edges _ db⟩
  simp only [processItems, hskip]

/-- C7 witness: the amended skip theorem at the concrete "dns" item on an empty store. -/
theorem C7_witness :
    ∃ db1 : Store,
      processItems ("bob_id") ("bob") 0 (bobItem :: []) ⟨[], [], 0⟩ 0 [] [] =
        processItems ("bob_id") ("bob") 0 [] db1 (0 + 1) []
          ([] ++ [StoreEvent.createOrUpdate]) ∧
      db1.edges = (⟨[], [], 0⟩ : Store).edges :=
  C7_amended_skip_causes_one_upsert ("bob_id") ("bob") 0 bobItem [] ⟨[], [], 0⟩ 0 [] []
    (by decide)

/-- C8 counterexample: on the unparsable UUID string "not-a-uuid" the proof query resolver
returns an error (the propagated parse failure), not a `None`/not-found result. -/
theorem C8_counterexample :
    ProofQuery.proof ⟨[], [], 0⟩ (some ("not-a-uuid")) =
      Except.error (Error.ParamError ("invalid UUID")) ∧
    ProofQuery.proof ⟨[], [], 0⟩ (some ("not-a-uuid")) ≠ Except.ok none := by
  refine ⟨by decide, by decide⟩

/-- C8 amended: an absent UUID argument yields a `None` result with no error, and a valid
UUID yields the store lookup's result; but an unparsable UUID string yields a parameter
error — only the parse failure and store failures produce errors at this boundary. -/
theorem C8_amended_parse_error (db : Store) (s : String) :
    ProofQuery.proof db none = Except.ok none ∧
    (parseUuid s = none →
      ProofQuery.proof db (some s) = Except.error (Error.ParamError ("invalid UUID"))) ∧
    (∀ u, parseUuid s = some u →
      ProofQuery.proof db (some s) = Except.ok (Proof.find_by_uuid db u)) := by
  refine ⟨rfl, ?_, ?_⟩
  · intro hp
    show (match parseUuid s with
      | none => Except.error (Error.ParamError ("invalid UUID"))
      | some u => Except.ok (Proof.find_by_uuid db u)) = _
    rw [hp]
  · intro u hp
    show (match parseUuid s with
      | none => Except.error (Error.ParamError ("invalid UUID"))
      | some u => Except.ok (Proof.find_by_uuid db u)) = _
    rw [hp]

/-- C8 witness: the amended resolver theorem at the empty store and the string "abc". -/
theorem C8_witness :
    ProofQuery.proof ⟨[], [], 0⟩ none = Except.ok none ∧
    (parseUuid ("abc") = none →
      ProofQuery.proof ⟨[], [], 0⟩ (some ("abc")) =
        Except.error (Error.ParamError ("invalid UUID"))) ∧
    (∀ u, parseUuid ("abc") = some u →
      ProofQuery.proof ⟨[], [], 0⟩ (some ("abc")) =
        Except.ok (Proof.find_by_uuid ⟨[], [], 0⟩ u)) :=
  C8_amended_parse_error ⟨[], [], 0⟩ ("abc")

/-! ## Witnesses for the confirmed claims with hypotheses -/

/-- C1 witness: the idempotence theorem at a concrete store, record pair and equivalent
proof payloads. -/
theorem C1_witness :
    (proofP.connect ⟨[], [], 2⟩ recA recB).2.edges =
      (⟨[], [], 2⟩ : Store).edges ++
        [⟨(⟨[], [], 2⟩ : Store).nextKey, recA.key, recB.key, proofP⟩] ∧
    proofQ.connect (proofP.connect ⟨[], [], 2⟩ recA recB).2 recA recB =
      ((proofP.connect ⟨[], [], 2⟩ recA recB).1,
       (proofP.connect ⟨[], [], 2⟩ recA recB).2) ∧
    (proofQ.connect (proofP.connect ⟨[], [], 2⟩ recA recB).2 recA recB).1.record.uuid =
      proofP.uuid :=
  C1_connect_idempotent ⟨[], [], 2⟩ recA recB proofP proofQ rfl rfl (by decide)

/-- C3 witness: the directionality theorem at a concrete store and record pair. -/
theorem C3_witness :
    Proof.find_by_from_to (proofP.connect ⟨[], [], 2⟩ recA recB).2 recB recA
      proofQ.source proofQ.record_id = none ∧
    (proofQ.connect (proofP.connect ⟨[], [], 2⟩ recA recB).2 recB recA).2.edges =
      (⟨[], [], 2⟩ : Store).edges ++
        [(proofP.connect ⟨[], [], 2⟩ recA recB).1,
         (proofQ.connect (proofP.connect ⟨[], [], 2⟩ recA recB).2 recB recA).1] ∧
    (proofP.connect ⟨[], [], 2⟩ recA recB).1.key ≠
      (proofQ.connect (proofP.connect ⟨[], [], 2⟩ recA recB).2 recB recA).1.key ∧
    ((proofP.connect ⟨[], [], 2⟩ recA recB).1.from_key,
     (proofP.connect ⟨[], [], 2⟩ recA recB).1.to_key) ≠
      ((proofQ.connect (proofP.connect ⟨[], [], 2⟩ recA recB).2 recB recA).1.from_key,
       (proofQ.connect (proofP.connect ⟨[], [], 2⟩ recA recB).2 recB recA).1.to_key) :=
  C3_directionality ⟨[], [], 2⟩ recA recB proofP proofQ (by decide) (by decide) (by decide)

/-- C4 witness: the no-write theorem at a store already holding the matching edge. -/
theorem C4_witness : proofP.connect dbAB recA recB = (edgeAB, dbAB) :=
  C4_connect_found_frame dbAB recA recB proofP edgeAB (by decide)

/-- C5 witness: the zero-links / no-subject theorem at carol's concrete response. -/
theorem C5_witness :
    (carolBody.them = [] ++ [carolPerson] → carolPerson.proofs_summary.all = [] →
      Keybase.fetch carolBody ⟨[], [], 0⟩ 0 0 = Except.ok ([], ⟨[], [], 0⟩, [])) ∧
    (carolBody.them = [] →
      Keybase.fetch carolBody ⟨[], [], 0⟩ 0 0 = Except.error Error.NoResult ∧
      (∀ res, Keybase.fetch carolBody ⟨[], [], 0⟩ 0 0 ≠ Except.ok res) ∧
      (∀ msg st, Keybase.fetch carolBody ⟨[], [], 0⟩ 0 0 ≠
        Except.error (Error.General msg st))) :=
  C5_zero_links_vs_no_subject carolBody ⟨[], [], 0⟩ 0 0 [] carolPerson rfl

/-- C6 witness: the skip theorem at dave's concrete mixed-platform response. -/
theorem C6_witness :
    ∃ c dbOut evs,
      Keybase.fetch ⟨⟨0, "OK"⟩, [davePerson]⟩ ⟨[], [], 0⟩ 0 0 =
        Except.ok ([c], dbOut, evs) :=
  C6_unsupported_platform_skip ⟨0, "OK"⟩ davePerson ⟨[], [], 0⟩ 0 0 daveRecItem
    daveUnItem Platform.Github rfl (by decide) (by decide) rfl

/-- C9 witness: the omitted-record-id theorem at a store whose matching edge carries a
present `record_id`. -/
theorem C9_witness :
    Proof.find_by_from_to dbAB recA recB proofNoRid.source none =
      (dbAB.edges.filter (fun x =>
        x.from_key == recA.key && x.to_key == recB.key &&
        x.record.source == proofNoRid.source)).head? ∧
    proofNoRid.connect dbAB recA recB = (edgeAB, dbAB) :=
  C9_record_id_none_dedup dbAB recA recB proofNoRid edgeAB rfl (by decide)

end RelationServer
